import Mathlib

/-!
Verification of the job orchestration and download pipeline of the
complaion-tldv backend: the job state machine (`backend/app/models/job.py`),
the rate-limited retrying API client (`backend/app/services/tldv_service.py`),
the batch download orchestrator and per-item processor
(`backend/tasks/meeting_tasks.py`), and the stuck-job monitor
(`backend/tasks/job_task.py`).

Timestamps are modelled as rationals (Python `datetime` / `time.time()`
values), carried explicitly as a `now` argument wherever the source calls
`datetime.utcnow()` or `time.time()`.
-/

namespace TldvPipeline

/-! ## Job data model (`backend/app/models/job.py`) -/

/-- `JobStatus` enum. -/
inductive JobStatus where
  | pending
  | running
  | completed
  | failed
  | cancelled
  deriving DecidableEq, Repr

/-- `JobError`: one entry of a job's `errors` list.  `details` is an opaque
optional payload. -/
structure JobError where
  timestamp : ℚ
  errorCode : String
  message : String
  details : Option String := none
  retryCount : ℕ := 0
  deriving DecidableEq, Repr

/-- `JobProgress`. `totalItems` is `None` until pagination completes. -/
structure JobProgress where
  currentStep : String
  totalSteps : ℕ
  completedSteps : ℕ := 0
  currentItem : Option String := none
  processedItems : ℕ := 0
  totalItems : Option ℕ := none
  deriving DecidableEq, Repr

/-- `JobProgress.step_percentage`: `completed_steps / total_steps * 100`,
`0.0` when `total_steps == 0`. -/
def JobProgress.stepPercentage (p : JobProgress) : ℚ :=
  if p.totalSteps = 0 then 0 else (p.completedSteps : ℚ) / (p.totalSteps : ℚ) * 100

/-- `JobProgress.item_percentage`: `None` when `total_items` is `None` or `0`,
otherwise `processed_items / total_items * 100`. -/
def JobProgress.itemPercentage (p : JobProgress) : Option ℚ :=
  match p.totalItems with
  | none => none
  | some t => if t = 0 then none else some ((p.processedItems : ℚ) / (t : ℚ) * 100)

/-- `JobProgress.overall_percentage`: `self.item_percentage or self.step_percentage`.
Python `or` falls through both on `None` and on the falsy float `0.0`. -/
def JobProgress.overallPercentage (p : JobProgress) : ℚ :=
  match p.itemPercentage with
  | none => p.stepPercentage
  | some x => if x = 0 then p.stepPercentage else x

/-- The opaque `result` dict of a job; `if result:` truthiness means a `None`
or empty dict is not written. -/
abbrev ResultDict := List (String × String)

/-- The `Job` pydantic model (the fields the state machine reads or writes). -/
structure Job where
  id : String
  status : JobStatus := .pending
  createdAt : ℚ
  startedAt : Option ℚ := none
  completedAt : Option ℚ := none
  updatedAt : ℚ
  progress : Option JobProgress := none
  result : Option ResultDict := none
  errors : List JobError := []
  retryCount : ℕ := 0
  maxRetries : ℕ := 3
  deriving DecidableEq, Repr

/-- `Job.add_error`: append a `JobError` stamped with the job's current
`retry_count` and bump `updated_at`. -/
def Job.addError (j : Job) (errorCode message : String) (details : Option String)
    (now : ℚ) : Job :=
  { j with
    errors := j.errors ++ [{ timestamp := now, errorCode := errorCode,
                             message := message, details := details,
                             retryCount := j.retryCount }]
    updatedAt := now }

/-- `Job.start`: unconditionally sets `status = RUNNING` and stamps
`started_at` / `updated_at`. -/
def Job.start (j : Job) (now : ℚ) : Job :=
  { j with status := .running, startedAt := some now, updatedAt := now }

/-- `Job.complete`: unconditionally sets `status = COMPLETED`, stamps
`completed_at` / `updated_at`, and writes `result` only when truthy. -/
def Job.complete (j : Job) (result : Option ResultDict) (now : ℚ) : Job :=
  { j with
    status := .completed, completedAt := some now, updatedAt := now
    result := match result with
      | none => j.result
      | some r => if r.isEmpty then j.result else some r }

/-- `Job.fail`: unconditionally sets `status = FAILED`, stamps
`completed_at` / `updated_at`, and appends an error. -/
def Job.fail (j : Job) (errorCode message : String) (details : Option String)
    (now : ℚ) : Job :=
  Job.addError
    { j with status := .failed, completedAt := some now, updatedAt := now }
    errorCode message details now

/-- `Job.cancel`: unconditionally sets `status = CANCELLED` and stamps
`completed_at` / `updated_at`. -/
def Job.cancel (j : Job) (now : ℚ) : Job :=
  { j with status := .cancelled, completedAt := some now, updatedAt := now }

/-- `Job.can_retry`: `status == FAILED and retry_count < max_retries`. -/
def Job.canRetry (j : Job) : Bool :=
  j.status = JobStatus.failed ∧ j.retryCount < j.maxRetries

/-- `Job.retry`: raises `ValueError` unless `can_retry()`; otherwise bumps
`retry_count`, moves to `PENDING`, clears `started_at`/`completed_at`, and
resets the progress counters when a progress record exists. -/
def Job.retry (j : Job) (now : ℚ) : Except String Job :=
  if ¬ j.canRetry then .error "Job cannot be retried"
  else .ok
    { j with
      retryCount := j.retryCount + 1
      status := .pending
      startedAt := none
      completedAt := none
      updatedAt := now
      progress := j.progress.map fun p =>
        { p with completedSteps := 0, processedItems := 0, currentStep := "Retrying" } }

/-- A concrete job already in the terminal `completed` status, used to
exercise the mutators on a finished job. -/
def completedJobExample : Job :=
  { id := "job-1", status := .completed, createdAt := 0, updatedAt := 0,
    completedAt := some 1 }

/-- A concrete failed job with retry budget left. -/
def retryableJobExample : Job :=
  { id := "job-2", status := .failed, createdAt := 0, updatedAt := 3,
    startedAt := some 1, completedAt := some 2,
    progress := some { currentStep := "step", totalSteps := 4,
                       completedSteps := 2, processedItems := 7,
                       totalItems := some 10 },
    retryCount := 1, maxRetries := 3 }

/-- A concrete failed job whose retry budget is exhausted. -/
def exhaustedJobExample : Job :=
  { id := "job-3", status := .failed, createdAt := 0, updatedAt := 3,
    retryCount := 3, maxRetries := 3 }

/-- `Job.is_active`: status in pending/running. -/
def Job.isActive (j : Job) : Bool :=
  j.status = JobStatus.pending ∨ j.status = JobStatus.running

/-- `Job.is_finished`: status in completed/failed/cancelled. -/
def Job.isFinished (j : Job) : Bool :=
  j.status = JobStatus.completed ∨ j.status = JobStatus.failed ∨
    j.status = JobStatus.cancelled

/-! ## Rate limiter (`TLDVRateLimiter.wait_if_needed`,
`backend/app/services/tldv_service.py`) -/

/-- Number of recorded timestamps younger than the 60-second window at time
`now`. -/
def youngCount (times : List ℚ) (now : ℚ) : ℕ :=
  (times.filter fun t => now - t < 60).length

/-- `TLDVRateLimiter.wait_if_needed`, with the wall clock made explicit.
Given the recorded `request_times` and the current time `now`, it prunes
entries older than 60 seconds; if the pruned list has reached the
`requests_per_minute` ceiling it sleeps `60 - (now - request_times[0]) + 1`
seconds (when positive); then it appends `now` (the pre-sleep time, exactly
as the source does).  Returns the new timestamp list and the clock after the
call, or `none` in the (only reachable with `rpm = 0`) case where Python
would raise `IndexError` on `request_times[0]`. -/
def waitIfNeeded (rpm : ℕ) (times : List ℚ) (now : ℚ) : Option (List ℚ × ℚ) :=
  let pruned := times.filter fun t => now - t < 60
  if pruned.length < rpm then
    some (pruned ++ [now], now)
  else
    match pruned with
    | [] => none
    | t0 :: _ =>
      let sleepTime := 60 - (now - t0) + 1
      some (pruned ++ [now], if 0 < sleepTime then now + sleepTime else now)

/-- Sequential `acquire()` calls: each list entry is the nonnegative idle gap
before the next call; returns the state (timestamp list, clock) after each
call. -/
def runCallsTrace (rpm : ℕ) : List ℚ → List ℚ → ℚ → Option (List (List ℚ × ℚ))
  | [], _, _ => some []
  | d :: ds, times, clock =>
    match waitIfNeeded rpm times (clock + d) with
    | none => none
    | some (times', clock') =>
      (runCallsTrace rpm ds times' clock').map fun tr => (times', clock') :: tr

lemma youngCount_mono (times : List ℚ) {a b : ℚ} (h : a ≤ b) :
    youngCount times b ≤ youngCount times a := by
  unfold youngCount
  rw [← List.countP_eq_length_filter, ← List.countP_eq_length_filter]
  apply List.countP_mono_left
  intro t _ ht
  simp only [decide_eq_true_eq] at ht ⊢
  linarith

lemma waitIfNeeded_preserves (rpm : ℕ) (hrpm : 1 ≤ rpm) (times : List ℚ)
    (now : ℚ) (h : youngCount times now ≤ rpm) :
    ∃ times' clock', waitIfNeeded rpm times now = some (times', clock') ∧
      now ≤ clock' ∧ youngCount times' clock' ≤ rpm := by
  have hplen : (times.filter fun t => now - t < 60).length = youngCount times now := rfl
  by_cases hlt : (times.filter fun t => now - t < 60).length < rpm
  · refine ⟨(times.filter fun t => now - t < 60) ++ [now], now, ?_, le_refl _, ?_⟩
    · simp only [waitIfNeeded]
      rw [if_pos hlt]
    · unfold youngCount
      rw [List.filter_append, List.filter_filter]
      have h1 : (times.filter fun t => decide (now - t < 60) && decide (now - t < 60))
          = times.filter fun t => now - t < 60 := by
        apply List.filter_congr
        intro t _
        simp
      rw [h1]
      have h2 : ([now].filter fun t => now - t < 60) = [now] := by simp
      rw [h2, List.length_append]
      simpa using Nat.succ_le_of_lt hlt
  · push_neg at hlt
    have heq : (times.filter fun t => now - t < 60).length = rpm :=
      le_antisymm (hplen ▸ h) hlt
    obtain ⟨t0, rest, hcons⟩ : ∃ t0 rest,
        (times.filter fun t => now - t < 60) = t0 :: rest := by
      cases hp : times.filter fun t => now - t < 60 with
      | nil => rw [hp] at heq; simp at heq; omega
      | cons a l => exact ⟨a, l, rfl⟩
    have ht0 : now - t0 < 60 := by
      have hm : t0 ∈ times.filter fun t => now - t < 60 := by
        rw [hcons]; exact List.mem_cons_self _ _
      have := List.of_mem_filter hm
      simpa using this
    have hsleep : (0:ℚ) < 60 - (now - t0) + 1 := by linarith
    refine ⟨(times.filter fun t => now - t < 60) ++ [now],
            now + (60 - (now - t0) + 1), ?_, by linarith, ?_⟩
    · simp only [waitIfNeeded]
      rw [if_neg (by omega), hcons]
      dsimp only
      rw [if_pos hsleep]
    · set c := now + (60 - (now - t0) + 1) with hc
      unfold youngCount
      rw [hcons, List.cons_append, List.filter_cons]
      have hdrop : ¬ (c - t0 < 60) := by rw [hc]; linarith
      simp only [hdrop, decide_eq_true_eq, if_neg, decide_False]
      calc ((rest ++ [now]).filter fun t => c - t < 60).length
          ≤ (rest ++ [now]).length := List.length_filter_le _ _
        _ = rest.length + 1 := by simp
        _ = rpm := by
            have : rest.length + 1 = rpm := by
              have := heq; rw [hcons] at this; simpa using this
            exact this

lemma runCallsTrace_invariant (rpm : ℕ) (hrpm : 1 ≤ rpm) :
    ∀ (ds times : List ℚ) (clock : ℚ), (∀ d ∈ ds, 0 ≤ d) →
      youngCount times clock ≤ rpm →
      ∃ tr, runCallsTrace rpm ds times clock = some tr ∧
        ∀ st ∈ tr, youngCount st.1 st.2 ≤ rpm := by
  intro ds
  induction ds with
  | nil => exact fun times clock _ _ => ⟨[], rfl, by simp⟩
  | cons d ds ih =>
    intro times clock hds hinv
    have hd : 0 ≤ d := hds d (List.mem_cons_self _ _)
    have hnow : youngCount times (clock + d) ≤ rpm :=
      le_trans (youngCount_mono times (by linarith)) hinv
    obtain ⟨times', clock', heq, hle, hinv'⟩ :=
      waitIfNeeded_preserves rpm hrpm times (clock + d) hnow
    obtain ⟨tr, htr, hall⟩ :=
      ih times' clock' (fun e he => hds e (List.mem_cons_of_mem _ he)) hinv'
    refine ⟨(times', clock') :: tr, ?_, ?_⟩
    · simp only [runCallsTrace, heq, htr]
      rfl
    · intro st hst
      rcases List.mem_cons.mp hst with h | h
      · subst h; exact hinv'
      · exact hall st h

/-- Claim C5: (a) for every sequence of sequential `acquire()` calls with
ceiling `N ≥ 1`, after each call the count of recorded timestamps younger
than 60 seconds never exceeds `N`; (b) with `N = 5`, six rapid calls at time
0 leave the first five unblocked (clock still 0) while the 6th sleeps until
clock 61, i.e. until the oldest timestamp 0 has aged out of the 60-second
window with the +1 second guard (`0 + 60 < 61`), before its own timestamp is
recorded. -/
theorem rate_limiter_window_never_exceeds_ceiling :
    (∀ (rpm : ℕ) (ds times : List ℚ) (clock : ℚ), 1 ≤ rpm →
      (∀ d ∈ ds, 0 ≤ d) → youngCount times clock ≤ rpm →
      ∃ tr, runCallsTrace rpm ds times clock = some tr ∧
        ∀ st ∈ tr, youngCount st.1 st.2 ≤ rpm) ∧
    runCallsTrace 5 (List.replicate 6 (0:ℚ)) [] 0 =
      some [([0], 0), ([0, 0], 0), ([0, 0, 0], 0), ([0, 0, 0, 0], 0),
            ([0, 0, 0, 0, 0], 0), ([0, 0, 0, 0, 0, 0], 61)] ∧
    (0:ℚ) + 60 < 61 := by
  refine ⟨fun rpm ds times clock h1 h2 h3 =>
    runCallsTrace_invariant rpm h1 ds times clock h2 h3, ?_, by norm_num⟩
  norm_num [runCallsTrace, waitIfNeeded]

/-- Witness for C5: three calls 10 seconds apart under ceiling 3 all succeed
and each post-call state has at most 3 young timestamps. -/
theorem rate_limiter_window_witness :
    ∃ tr, runCallsTrace 3 [0, 10, 20] [] 0 = some tr ∧
      ∀ st ∈ tr, youngCount st.1 st.2 ≤ 3 :=
  rate_limiter_window_never_exceeds_ceiling.1 3 [0, 10, 20] [] 0
    (by norm_num) (by norm_num) (by norm_num [youngCount])

/-! ## Provider client (`TLDVService._make_request`,
`backend/app/services/tldv_service.py`) -/

/-- The outcome of one `self.session.request(...)` call.  For an HTTP
response, `jsonData` is `some (some m)` when the body parses as JSON with a
`message` key `m`, `some none` when it parses without one, and `none` when it
is not JSON. -/
inductive HttpAttempt where
  | http (status : ℕ) (retryAfter : Option ℕ) (jsonData : Option (Option String))
      (body : String)
  | timeout
  | connError
  deriving DecidableEq, Repr

/-- The message built by `TLDVService._raise_api_error`. -/
def apiErrorMessage (status : ℕ) (jsonData : Option (Option String))
    (body : String) : String :=
  match jsonData with
  | some (some m) => m
  | some none => "HTTP " ++ toString status
  | none => "HTTP " ++ toString status ++ ": " ++ body.take 200

/-- Result of `_make_request`: the returned 200 body, or the raised
`TLDVAPIError` (message, optional status code); both record the total
seconds slept and the number of attempts made. -/
inductive ReqOutcome where
  | success (body : String) (slept : ℕ) (attempts : ℕ)
  | failure (message : String) (status : Option ℕ) (slept : ℕ) (attempts : ℕ)
  deriving DecidableEq, Repr

/-- The retry loop of `TLDVService._make_request`.  `resp i` is the HTTP
outcome of attempt `i`; `fuel` is the number of loop iterations left
(`max_retries + 1` at the start).  On 429 it sleeps `Retry-After` (default
60) and moves to the next attempt; on 5xx it raises at the last attempt and
otherwise sleeps `2 ^ attempt`; on any other non-200 status it raises
immediately; timeouts and connection errors back off like 5xx with their own
terminal messages.  When the loop ends, `TLDVAPIError("All retry attempts
failed")` is raised. -/
def makeRequestGo (maxRetries : ℕ) (resp : ℕ → HttpAttempt) :
    ℕ → ℕ → ℕ → ReqOutcome
  | 0, attempt, slept => .failure "All retry attempts failed" none slept attempt
  | fuel + 1, attempt, slept =>
    match resp attempt with
    | .http status retryAfter jsonData body =>
      if status = 200 then .success body slept (attempt + 1)
      else if status = 429 then
        makeRequestGo maxRetries resp fuel (attempt + 1) (slept + retryAfter.getD 60)
      else if 500 ≤ status then
        if attempt = maxRetries then
          .failure (apiErrorMessage status jsonData body) (some status) slept (attempt + 1)
        else
          makeRequestGo maxRetries resp fuel (attempt + 1) (slept + 2 ^ attempt)
      else
        .failure (apiErrorMessage status jsonData body) (some status) slept (attempt + 1)
    | .timeout =>
      if attempt = maxRetries then
        .failure "Request timeout after all retries" none slept (attempt + 1)
      else makeRequestGo maxRetries resp fuel (attempt + 1) (slept + 2 ^ attempt)
    | .connError =>
      if attempt = maxRetries then
        .failure "Connection error after all retries" none slept (attempt + 1)
      else makeRequestGo maxRetries resp fuel (attempt + 1) (slept + 2 ^ attempt)

/-- `TLDVService._make_request`: `for attempt in range(max_retries + 1)`. -/
def makeRequest (maxRetries : ℕ) (resp : ℕ → HttpAttempt) : ReqOutcome :=
  makeRequestGo maxRetries resp (maxRetries + 1) 0 0

/-- A response stream answering 429 (no `Retry-After` header) to the first
`k` attempts and 200 `"ok"` afterwards. -/
def rateLimitedThenOk (k : ℕ) : ℕ → HttpAttempt := fun i =>
  if i < k then .http 429 none none "" else .http 200 none none "ok"

/-- A response stream answering 500 to the first two attempts and 200 `"ok"`
afterwards. -/
def serverErrorTwiceThenOk : ℕ → HttpAttempt := fun i =>
  if i < 2 then .http 500 none none "err" else .http 200 none none "ok"

lemma makeRequestGo_429_until (maxR k : ℕ) :
    ∀ fuel attempt slept, attempt + fuel = maxR + 1 → attempt ≤ k → k ≤ maxR →
      makeRequestGo maxR (rateLimitedThenOk k) fuel attempt slept =
        .success "ok" (slept + 60 * (k - attempt)) (k + 1) := by
  intro fuel
  induction fuel with
  | zero => intro attempt slept hsum hak hkm; omega
  | succ fuel ih =>
    intro attempt slept hsum hak hkm
    by_cases hlt : attempt < k
    · have hresp : rateLimitedThenOk k attempt = .http 429 none none "" := by
        simp [rateLimitedThenOk, hlt]
      rw [makeRequestGo, hresp]
      norm_num
      rw [ih (attempt + 1) (slept + 60) (by omega) (by omega) hkm]
      have : slept + 60 + 60 * (k - (attempt + 1)) = slept + 60 * (k - attempt) := by
        omega
      rw [this]
    · have hae : attempt = k := by omega
      subst hae
      have hresp : rateLimitedThenOk attempt attempt = .http 200 none none "ok" := by
        simp [rateLimitedThenOk]
      rw [makeRequestGo, hresp]
      norm_num

lemma makeRequestGo_429_exhausts (maxR : ℕ) (resp : ℕ → HttpAttempt) :
    ∀ fuel attempt slept,
      (∀ i, attempt ≤ i → i < attempt + fuel → resp i = .http 429 none none "") →
      makeRequestGo maxR resp fuel attempt slept =
        .failure "All retry attempts failed" none (slept + 60 * fuel) (attempt + fuel) := by
  intro fuel
  induction fuel with
  | zero => intro attempt slept _; simp [makeRequestGo]
  | succ fuel ih =>
    intro attempt slept hresp
    rw [makeRequestGo, hresp attempt (le_refl _) (by omega)]
    norm_num
    rw [ih (attempt + 1) (slept + 60) fun i h1 h2 => hresp i (by omega) (by omega)]
    have h1 : slept + 60 + 60 * fuel = slept + 60 * (fuel + 1) := by ring
    have h2 : attempt + 1 + fuel = attempt + (fuel + 1) := by omega
    rw [h1, h2]

/-- Claim C3 as stated is false: with the default `max_retries = 3`, four
consecutive 429 responses followed by a 200 do NOT succeed — each
429-triggered retry consumes an attempt of the shared budget (`continue`
advances the `for attempt in range(max_retries + 1)` loop), so the call
raises `All retry attempts failed` after sleeping 4 × 60 seconds, never
seeing the 200. -/
theorem rate_limited_retry_exhausts_budget_counterexample :
    makeRequest 3 (rateLimitedThenOk 4) =
      .failure "All retry attempts failed" none 240 4 := by
  have h := makeRequestGo_429_exhausts 3 (rateLimitedThenOk 4) 4 0 0
    (fun i _ h2 => by simp [rateLimitedThenOk]; omega)
  simpa [makeRequest] using h

/-- Claim C3 amended: every 429 response causes a sleep of the `Retry-After`
duration (default 60 seconds) followed by a retry, but that retry consumes
one attempt of the `max_retries + 1` attempt budget: `k ≤ max_retries`
consecutive 429s followed by a 200 still succeed (on attempt `k + 1`, after
sleeping `60 k` seconds), while `max_retries + 1` consecutive 429s exhaust
the budget and the request fails with `All retry attempts failed`. -/
theorem rate_limited_retries_consume_attempt_budget (maxR k : ℕ) (hk : k ≤ maxR) :
    makeRequest maxR (rateLimitedThenOk k) = .success "ok" (60 * k) (k + 1) ∧
    makeRequest maxR (rateLimitedThenOk (maxR + 1)) =
      .failure "All retry attempts failed" none (60 * (maxR + 1)) (maxR + 1) := by
  constructor
  · have h := makeRequestGo_429_until maxR k (maxR + 1) 0 0 (by omega) (by omega) hk
    simpa [makeRequest] using h
  · have h := makeRequestGo_429_exhausts maxR (rateLimitedThenOk (maxR + 1))
      (maxR + 1) 0 0 (fun i _ h2 => by simp [rateLimitedThenOk]; omega)
    simpa [makeRequest] using h

/-- Witness for the amended C3: with `max_retries = 3`, two 429s then a 200
succeed on the 3rd attempt after 120 seconds of sleeping, and four 429s
fail. -/
theorem rate_limited_retries_budget_witness :
    makeRequest 3 (rateLimitedThenOk 2) = .success "ok" 120 3 ∧
    makeRequest 3 (rateLimitedThenOk 4) =
      .failure "All retry attempts failed" none 240 4 :=
  rate_limited_retries_consume_attempt_budget 3 2 (by omega)

/-- Claim C6: the response sequence `[500, 500, 200]` with `max_retries = 3`
succeeds on the 3rd attempt having slept exactly `2^0 + 2^1 = 3` seconds of
backoff; and every 4xx status other than 429 fails immediately with a
non-retryable error carrying the status and the body-derived message, after
exactly one attempt and zero sleep. -/
theorem backoff_on_5xx_and_fail_fast_on_4xx :
    makeRequest 3 serverErrorTwiceThenOk = .success "ok" (2 ^ 0 + 2 ^ 1) 3 ∧
    (∀ (maxR : ℕ) (resp : ℕ → HttpAttempt) (s : ℕ) (ra : Option ℕ)
        (jd : Option (Option String)) (b : String),
      resp 0 = .http s ra jd b → 400 ≤ s → s < 500 → s ≠ 429 →
      makeRequest maxR resp = .failure (apiErrorMessage s jd b) (some s) 0 1) := by
  constructor
  · rw [makeRequest]
    rw [makeRequestGo, show serverErrorTwiceThenOk 0 = .http 500 none none "err" from rfl]
    norm_num
    rw [makeRequestGo, show serverErrorTwiceThenOk 1 = .http 500 none none "err" from rfl]
    norm_num
    rw [makeRequestGo, show serverErrorTwiceThenOk 2 = .http 200 none none "ok" from rfl]
    norm_num
  · intro maxR resp s ra jd b hresp h4 h5 h429
    rw [makeRequest, makeRequestGo, hresp]
    have hs200 : s ≠ 200 := by omega
    have hs500 : ¬ 500 ≤ s := by omega
    simp [hs200, h429, hs500]

/-- Witness for C6: a bare 404 with a non-JSON body fails on the first
attempt with the status and body in the error. -/
theorem fail_fast_on_404_witness :
    makeRequest 5 (fun _ => .http 404 none none "missing") =
      .failure (apiErrorMessage 404 none "missing") (some 404) 0 1 :=
  backoff_on_5xx_and_fail_fast_on_4xx.2 5 (fun _ => .http 404 none none "missing")
    404 none none "missing" rfl (by omega) (by omega) (by omega)

/-! ## Batch download orchestrator (`download_meetings_job`,
`backend/tasks/meeting_tasks.py`)

External collaborators are inputs: the pagination call
`tldv_service.get_all_meetings_batch` is an oracle (`PaginationOutcome`),
`firebase_service.update_job_status` calls are recorded as `UpdateCall`
events, and `download_single_meeting.apply_async` dispatches are recorded as
`DispatchRec` events (with an oracle for a dispatch raising). -/

/-- The fields of a meeting the orchestrator reads. -/
structure MeetingItem where
  id : String
  name : String
  deriving DecidableEq, Repr

/-- What `get_all_meetings_batch` does: returns the full item list, raises
`TLDVAPIError`, or raises some other exception. -/
inductive PaginationOutcome where
  | items (ms : List MeetingItem)
  | apiError (status : Option ℕ) (message : String)
  | unexpected (message : String)
  deriving DecidableEq, Repr

/-- One entry of the `errors=[...]` kwarg passed to `update_job_status`. -/
structure OrchestratorError where
  errorCode : String
  message : String
  statusCode : Option ℕ := none
  retries : Option ℕ := none
  deriving DecidableEq, Repr

/-- The aggregate `result` dict built by `download_meetings_job`. -/
structure BatchResult where
  totalMeetings : ℕ
  processedMeetings : ℕ
  failedMeetings : ℕ
  itemErrors : List (String × String) := []
  message : Option String := none
  durationSeconds : ℕ := 0
  deriving DecidableEq, Repr

/-- One `firebase_service.update_job_status(job_id, status, **kwargs)` call.
Timestamps are recorded as stamped-or-not flags. -/
structure UpdateCall where
  jobId : String
  status : String
  startedAtStamped : Bool := false
  completedAtStamped : Bool := false
  progress : Option JobProgress := none
  result : Option BatchResult := none
  errors : Option (List OrchestratorError) := none
  deriving DecidableEq, Repr

/-- One `download_single_meeting.apply_async(args=[job_id, meeting], countdown=i*2)`
dispatch. -/
structure DispatchRec where
  jobId : String
  meetingId : String
  countdown : ℕ
  deriving DecidableEq, Repr

/-- How the orchestrator task terminates: normal return, re-raised
`TLDVAPIError`, Celery `self.retry`, or the re-raise after the
`UNEXPECTED_ERROR` update. -/
inductive TaskOutcome where
  | returned (result : BatchResult)
  | raisedApi (status : Option ℕ) (message : String)
  | raisedRetry (message : String)
  | raisedFinal (message : String)
  deriving DecidableEq, Repr

/-- Everything observable about one run of `download_meetings_job`. -/
structure OrchestratorRun where
  updates : List UpdateCall
  dispatches : List DispatchRec
  outcome : TaskOutcome
  deriving DecidableEq, Repr

/-- Output of the per-meeting dispatch loop (step 3 of the task). -/
structure ItemsLoopOut where
  updates : List UpdateCall
  dispatches : List DispatchRec
  processedCount : ℕ
  failedCount : ℕ
  itemErrors : List (String × String)
  finalProgress : JobProgress
  deriving DecidableEq, Repr

/-- The `for i, meeting in enumerate(meetings)` loop: mutate the shared
progress object, push a progress update, then dispatch the per-item task
with `countdown = i * 2`; a raising dispatch (`df i = some msg`) is caught
and counted in `failed_meetings` with an error entry, a successful one in
`processed_meetings`. -/
def processItemsGo (jobId : String) (df : ℕ → Option String) :
    List MeetingItem → ℕ → JobProgress → ItemsLoopOut
  | [], _, p => ⟨[], [], 0, 0, [], p⟩
  | m :: rest, i, progress =>
    let p' := { progress with
                currentStep := "Processing meeting: " ++ m.name
                currentItem := some m.id
                processedItems := i }
    let upd : UpdateCall := { jobId := jobId, status := "running", progress := some p' }
    let out := processItemsGo jobId df rest (i + 1) p'
    match df i with
    | none =>
      { out with
        updates := upd :: out.updates
        dispatches := { jobId := jobId, meetingId := m.id, countdown := i * 2 }
          :: out.dispatches
        processedCount := out.processedCount + 1 }
    | some msg =>
      { out with
        updates := upd :: out.updates
        failedCount := out.failedCount + 1
        itemErrors := (m.id, msg) :: out.itemErrors }

/-- The empty result completing a batch job that found no meetings. -/
def emptyBatchResult : BatchResult :=
  { totalMeetings := 0, processedMeetings := 0, failedMeetings := 0,
    message := some "No meetings found matching the criteria" }

/-- The initial `running` update with `started_at=datetime.utcnow()`. -/
def startingUpdate (jobId : String) : UpdateCall :=
  { jobId := jobId, status := "running", startedAtStamped := true }

/-- A `running` update carrying a progress snapshot. -/
def progressUpdate (jobId : String) (p : JobProgress) : UpdateCall :=
  { jobId := jobId, status := "running", progress := some p }

/-- The initial progress record of step 1. -/
def initialBatchProgress : JobProgress :=
  { currentStep := "Fetching meetings list", totalSteps := 4, completedSteps := 0 }

/-- The step-2 progress snapshot once pagination has revealed `n` items. -/
def batchProgressAfterCount (n : ℕ) : JobProgress :=
  { initialBatchProgress with
    completedSteps := 1
    currentStep := "Processing meetings"
    totalItems := some n
    processedItems := 0 }

/-- The terminal `completed` update with `completed_at=datetime.utcnow()`. -/
def completedUpdate (jobId : String) (r : BatchResult) (p : Option JobProgress) :
    UpdateCall :=
  { jobId := jobId, status := "completed", completedAtStamped := true,
    result := some r, progress := p }

/-- The terminal `failed` update with `completed_at=datetime.utcnow()` and an
`errors` list. -/
def failedUpdate (jobId : String) (errs : List OrchestratorError) : UpdateCall :=
  { jobId := jobId, status := "failed", completedAtStamped := true,
    errors := some errs }

/-- `download_meetings_job(self, job_id, filters_dict)`.  `retries` and
`maxRetries` are `self.request.retries` / `self.max_retries` of the Celery
task (`max_retries=3` in the decorator); `po` is what pagination does; `df i`
is whether the `i`-th `apply_async` raises.  Returns the recorded store
updates, the dispatched item tasks, and how the task terminates. -/
def downloadMeetingsJob (jobId : String) (retries maxRetries : ℕ)
    (po : PaginationOutcome) (df : ℕ → Option String) : OrchestratorRun :=
  let head := [startingUpdate jobId, progressUpdate jobId initialBatchProgress]
  match po with
  | .apiError st msg =>
    { updates := head ++
        [failedUpdate jobId [{ errorCode := "TLDV_API_ERROR", message := msg,
                               statusCode := st }]]
      dispatches := []
      outcome := .raisedApi st msg }
  | .unexpected msg =>
    if retries < maxRetries then
      { updates := head, dispatches := [], outcome := .raisedRetry msg }
    else
      { updates := head ++
          [failedUpdate jobId [{ errorCode := "UNEXPECTED_ERROR", message := msg,
                                 retries := some retries }]]
        dispatches := []
        outcome := .raisedFinal msg }
  | .items ms =>
    if ms.isEmpty then
      { updates := head ++ [completedUpdate jobId emptyBatchResult none]
        dispatches := []
        outcome := .returned emptyBatchResult }
    else
      let out := processItemsGo jobId df ms 0 (batchProgressAfterCount ms.length)
      let result : BatchResult :=
        { totalMeetings := ms.length, processedMeetings := out.processedCount,
          failedMeetings := out.failedCount, itemErrors := out.itemErrors }
      let finalProgress := { out.finalProgress with
                             completedSteps := 4
                             currentStep := "Finalizing"
                             processedItems := ms.length }
      { updates := head ++ [progressUpdate jobId (batchProgressAfterCount ms.length)]
          ++ out.updates ++ [completedUpdate jobId result (some finalProgress)]
        dispatches := out.dispatches
        outcome := .returned result }

/-! ## Per-item processor (`download_single_meeting`,
`backend/tasks/meeting_tasks.py`) -/

/-- The result dict returned by `download_single_meeting`. -/
structure ItemResult where
  meetingId : String
  transcriptSaved : Bool := false
  highlightsSaved : Bool := false
  videoUploaded : Bool := false
  errors : List String := []
  deriving DecidableEq, Repr

/-- Outcome of one sub-resource block (fetch + save inside one inner `try`):
the API returned nothing truthy, the resource was fetched and saved, or some
call in the block raised. -/
inductive SubStep where
  | absent
  | saved
  | failedWith (msg : String)
  deriving DecidableEq, Repr

/-- How the per-item task terminates: a returned result dict or a Celery
`self.retry` re-raise. -/
inductive ItemOutcome where
  | returned (r : ItemResult)
  | raisedRetry (msg : String)
  deriving DecidableEq, Repr

/-- `download_single_meeting(self, job_id, meeting_dict)` with
`max_retries=2` on the decorator.  `saveMeeting` is the outer
`firebase_service.save_meeting` call (its failure reaches the outer
`except`); the three `SubStep` oracles are the transcript, highlights and
video blocks, each wrapped in its own inner `try` whose exception is caught
and appended to `result['errors']`.  The video block only runs when the
meeting has a truthy `url`. -/
def downloadSingleMeeting (retries maxRetries : ℕ) (meetingId : String)
    (url : Option String) (saveMeeting : Except String String)
    (transcriptStep highlightsStep videoStep : SubStep) : ItemOutcome :=
  match saveMeeting with
  | .error e =>
    if retries < maxRetries then .raisedRetry e
    else .returned
      { meetingId := meetingId
        errors := ["Processing failed after " ++ toString retries ++ " retries: " ++ e] }
  | .ok docId =>
    let tFlag := transcriptStep = SubStep.saved
    let tErr : List String := match transcriptStep with
      | .failedWith m => ["Transcript error: " ++ m]
      | _ => []
    let hFlag := highlightsStep = SubStep.saved
    let hErr : List String := match highlightsStep with
      | .failedWith m => ["Highlights error: " ++ m]
      | _ => []
    let runVideo := url.isSome
    let vFlag := runVideo && videoStep = SubStep.saved
    let vErr : List String :=
      if runVideo then
        match videoStep with
        | .failedWith m => ["Video upload error: " ++ m]
        | _ => []
      else []
    .returned
      { meetingId := docId
        transcriptSaved := tFlag
        highlightsSaved := hFlag
        videoUploaded := vFlag
        errors := tErr ++ hErr ++ vErr }

/-! ## Stuck-job monitor (`monitor_stuck_jobs`, `backend/tasks/job_task.py`) -/

/-- The stored job fields the monitor reads and writes. -/
structure StoredJob where
  id : String
  name : String
  status : String
  startedAt : Option ℚ
  completedAt : Option ℚ := none
  errors : List OrchestratorError := []
  deriving DecidableEq, Repr

/-- The per-job body of `monitor_stuck_jobs`: a running job whose
`started_at` is older than `now - max_runtime_hours` is force-failed with a
`JOB_TIMEOUT` error entry and `completed_at` stamped; anything else is left
untouched. -/
def sweepJob (maxRuntimeHours : ℕ) (now : ℚ) (j : StoredJob) : StoredJob :=
  match j.startedAt with
  | some s =>
    if s < now - (maxRuntimeHours : ℚ) * 3600 then
      { j with
        status := "failed"
        completedAt := some now
        errors := [{ errorCode := "JOB_TIMEOUT"
                     message := "Job exceeded maximum runtime of "
                       ++ toString maxRuntimeHours ++ " hours" }] }
    else j
  | none => j

/-- `monitor_stuck_jobs(max_runtime_hours=2)` over the store's list of
`running` jobs: applies `sweepJob` to every job and reports the ids of the
stuck ones. -/
def monitorStuckJobs (maxRuntimeHours : ℕ) (now : ℚ) (runningJobs : List StoredJob) :
    List StoredJob × List String :=
  (runningJobs.map (sweepJob maxRuntimeHours now),
   (runningJobs.filter fun j =>
      match j.startedAt with
      | some s => s < now - (maxRuntimeHours : ℚ) * 3600
      | none => false).map (·.id))

lemma processItemsGo_all_ok (jobId : String) (df : ℕ → Option String)
    (hok : ∀ j, df j = none) :
    ∀ (ms : List MeetingItem) (i : ℕ) (p : JobProgress),
      (processItemsGo jobId df ms i p).dispatches =
        (ms.enumFrom i).map
          (fun x => { jobId := jobId, meetingId := x.2.id, countdown := x.1 * 2 }) ∧
      (processItemsGo jobId df ms i p).processedCount = ms.length ∧
      (processItemsGo jobId df ms i p).failedCount = 0 ∧
      (processItemsGo jobId df ms i p).itemErrors = [] := by
  intro ms
  induction ms with
  | nil => intro i p; simp [processItemsGo]
  | cons m rest ih =>
    intro i p
    have H := ih (i + 1)
      { p with currentStep := "Processing meeting: " ++ m.name
               currentItem := some m.id
               processedItems := i }
    simp only [processItemsGo, hok i, List.enumFrom_cons, List.map_cons,
      List.length_cons]
    exact ⟨by rw [H.1], by rw [H.2.1], H.2.2.1, H.2.2.2⟩

/-- Claim C2: with zero paginated items the job is completed immediately with
an empty result (`total_meetings = 0`) and no dispatches; with `n > 0` items
(and `apply_async` not raising) exactly one detached per-item task is
dispatched per item, in list order, with stagger delay `2 × index` (strictly
increasing), and the final store update marks the job `completed` with
aggregate counts even though the model never executes the dispatched tasks —
completion reflects dispatch only. -/
theorem batch_orchestrator_dispatch_and_completion (jobId : String)
    (retries maxRetries : ℕ) (df : ℕ → Option String) (ms : List MeetingItem) :
    ((downloadMeetingsJob jobId retries maxRetries (.items []) df).dispatches = [] ∧
     (downloadMeetingsJob jobId retries maxRetries (.items []) df).outcome =
       .returned emptyBatchResult ∧
     emptyBatchResult.totalMeetings = 0 ∧
     (∃ u, (downloadMeetingsJob jobId retries maxRetries (.items []) df).updates.getLast?
         = some u ∧ u.status = "completed" ∧ u.completedAtStamped = true ∧
         u.result = some emptyBatchResult)) ∧
    (ms ≠ [] → (∀ j, df j = none) →
      ∃ r, (downloadMeetingsJob jobId retries maxRetries (.items ms) df).outcome =
          .returned r ∧
        r.totalMeetings = ms.length ∧
        r.processedMeetings = ms.length ∧
        r.failedMeetings = 0 ∧
        (downloadMeetingsJob jobId retries maxRetries (.items ms) df).dispatches =
          ms.enum.map
            (fun x => { jobId := jobId, meetingId := x.2.id, countdown := x.1 * 2 }) ∧
        List.Pairwise (fun a b => a.countdown < b.countdown)
          (downloadMeetingsJob jobId retries maxRetries (.items ms) df).dispatches ∧
        (∃ u, (downloadMeetingsJob jobId retries maxRetries (.items ms) df).updates.getLast?
            = some u ∧ u.status = "completed" ∧ u.completedAtStamped = true ∧
            u.result = some r)) := by
  constructor
  · exact ⟨rfl, rfl, rfl,
      ⟨completedUpdate jobId emptyBatchResult none, rfl, rfl, rfl, rfl⟩⟩
  · intro hne hok
    have hempty : ms.isEmpty = false := by
      cases ms with
      | nil => exact absurd rfl hne
      | cons a l => rfl
    obtain ⟨hD, hP, hF, hE⟩ := processItemsGo_all_ok jobId df hok ms 0
      (batchProgressAfterCount ms.length)
    refine ⟨{ totalMeetings := ms.length
              processedMeetings := (processItemsGo jobId df ms 0
                (batchProgressAfterCount ms.length)).processedCount
              failedMeetings := (processItemsGo jobId df ms 0
                (batchProgressAfterCount ms.length)).failedCount
              itemErrors := (processItemsGo jobId df ms 0
                (batchProgressAfterCount ms.length)).itemErrors },
            ?_, rfl, hP, hF, ?_, ?_, ?_⟩
    · simp only [downloadMeetingsJob, hempty, Bool.false_eq_true, if_false]
    · simp only [downloadMeetingsJob, hempty, Bool.false_eq_true, if_false]
      exact hD
    · simp only [downloadMeetingsJob, hempty, Bool.false_eq_true, if_false]
      rw [hD, List.pairwise_map]
      have hfst : (ms.enumFrom 0).Pairwise fun x y => x.1 < y.1 := by
        have hr : ((ms.enumFrom 0).map Prod.fst).Pairwise (· < ·) := by
          rw [List.enumFrom_map_fst]
          exact List.pairwise_lt_range' 0 ms.length
        rwa [List.pairwise_map] at hr
      refine hfst.imp ?_
      intro a b hab
      show a.1 * 2 < b.1 * 2
      omega
    · simp only [downloadMeetingsJob, hempty, Bool.false_eq_true, if_false]
      refine ⟨completedUpdate jobId
        { totalMeetings := ms.length
          processedMeetings := (processItemsGo jobId df ms 0
            (batchProgressAfterCount ms.length)).processedCount
          failedMeetings := (processItemsGo jobId df ms 0
            (batchProgressAfterCount ms.length)).failedCount
          itemErrors := (processItemsGo jobId df ms 0
            (batchProgressAfterCount ms.length)).itemErrors }
        (some { (processItemsGo jobId df ms 0
                  (batchProgressAfterCount ms.length)).finalProgress with
                completedSteps := 4
                currentStep := "Finalizing"
                processedItems := ms.length }), ?_, rfl, rfl, rfl⟩
      exact List.getLast?_concat _

/-- Witness for C2: a two-item batch dispatches tasks for both items with
delays 0 and 2 and completes with counts (2, 2, 0). -/
theorem batch_orchestrator_witness :
    ∃ r, (downloadMeetingsJob "j1" 0 3
        (.items [⟨"m1", "A"⟩, ⟨"m2", "B"⟩]) (fun _ => none)).outcome = .returned r ∧
      r.totalMeetings = ([⟨"m1", "A"⟩, ⟨"m2", "B"⟩] : List MeetingItem).length ∧
      r.processedMeetings = ([⟨"m1", "A"⟩, ⟨"m2", "B"⟩] : List MeetingItem).length ∧
      r.failedMeetings = 0 ∧
      (downloadMeetingsJob "j1" 0 3
        (.items [⟨"m1", "A"⟩, ⟨"m2", "B"⟩]) (fun _ => none)).dispatches =
        ([⟨"m1", "A"⟩, ⟨"m2", "B"⟩] : List MeetingItem).enum.map
          (fun x => { jobId := "j1", meetingId := x.2.id, countdown := x.1 * 2 }) ∧
      List.Pairwise (fun a b => a.countdown < b.countdown)
        (downloadMeetingsJob "j1" 0 3
          (.items [⟨"m1", "A"⟩, ⟨"m2", "B"⟩]) (fun _ => none)).dispatches ∧
      (∃ u, (downloadMeetingsJob "j1" 0 3
          (.items [⟨"m1", "A"⟩, ⟨"m2", "B"⟩]) (fun _ => none)).updates.getLast?
          = some u ∧ u.status = "completed" ∧ u.completedAtStamped = true ∧
          u.result = some r) :=
  (batch_orchestrator_dispatch_and_completion "j1" 0 3 (fun _ => none)
    [⟨"m1", "A"⟩, ⟨"m2", "B"⟩]).2 (by simp) (fun _ => rfl)

/-- Claim C7: a `TLDVAPIError` during pagination fails the whole job with a
`TLDV_API_ERROR` entry carrying the provider status code, re-raising to the
caller; any other exception triggers the Celery retry while retries remain
(with no `failed` update), and only on exhaustion (`retries ≥ max_retries`)
is the job marked `failed` with an `UNEXPECTED_ERROR` entry. -/
theorem batch_orchestrator_failure_semantics (jobId : String)
    (retries maxRetries : ℕ) (st : Option ℕ) (msg : String) (df : ℕ → Option String) :
    ((downloadMeetingsJob jobId retries maxRetries (.apiError st msg) df).outcome =
        .raisedApi st msg ∧
      (downloadMeetingsJob jobId retries maxRetries (.apiError st msg) df).dispatches = [] ∧
      (∃ u, (downloadMeetingsJob jobId retries maxRetries (.apiError st msg) df).updates.getLast?
          = some u ∧ u.status = "failed" ∧ u.completedAtStamped = true ∧
          u.errors = some [{ errorCode := "TLDV_API_ERROR", message := msg,
                             statusCode := st }])) ∧
    (retries < maxRetries →
      (downloadMeetingsJob jobId retries maxRetries (.unexpected msg) df).outcome =
        .raisedRetry msg ∧
      ∀ u ∈ (downloadMeetingsJob jobId retries maxRetries (.unexpected msg) df).updates,
        u.status ≠ "failed") ∧
    (maxRetries ≤ retries →
      (downloadMeetingsJob jobId retries maxRetries (.unexpected msg) df).outcome =
        .raisedFinal msg ∧
      (∃ u, (downloadMeetingsJob jobId retries maxRetries (.unexpected msg) df).updates.getLast?
          = some u ∧ u.status = "failed" ∧ u.completedAtStamped = true ∧
          u.errors = some [{ errorCode := "UNEXPECTED_ERROR", message := msg,
                             retries := some retries }])) := by
  refine ⟨⟨rfl, rfl, ⟨failedUpdate jobId
      [{ errorCode := "TLDV_API_ERROR", message := msg, statusCode := st }],
      rfl, rfl, rfl, rfl⟩⟩, ?_, ?_⟩
  · intro h
    have hrun : downloadMeetingsJob jobId retries maxRetries (.unexpected msg) df =
        { updates := [startingUpdate jobId, progressUpdate jobId initialBatchProgress]
          dispatches := []
          outcome := .raisedRetry msg } := by
      simp only [downloadMeetingsJob, if_pos h]
    rw [hrun]
    refine ⟨rfl, ?_⟩
    intro u hu
    simp only [List.mem_cons, List.not_mem_nil, or_false] at hu
    rcases hu with hu | hu
    · rw [hu]; simp [startingUpdate]
    · rw [hu]; simp [progressUpdate]
  · intro h
    have hnot : ¬ retries < maxRetries := by omega
    have hrun : downloadMeetingsJob jobId retries maxRetries (.unexpected msg) df =
        { updates := [startingUpdate jobId, progressUpdate jobId initialBatchProgress]
            ++ [failedUpdate jobId
              [{ errorCode := "UNEXPECTED_ERROR", message := msg, retries := some retries }]]
          dispatches := []
          outcome := .raisedFinal msg } := by
      simp only [downloadMeetingsJob, if_neg hnot]
    rw [hrun]
    exact ⟨rfl, ⟨failedUpdate jobId
      [{ errorCode := "UNEXPECTED_ERROR", message := msg, retries := some retries }],
      rfl, rfl, rfl, rfl⟩⟩

/-- Witness for C7: a 502 pagination error fails job "j2" with the status
recorded; an unexpected error with retries left re-raises as a retry with no
`failed` update; one with the budget exhausted writes `UNEXPECTED_ERROR`. -/
theorem batch_orchestrator_failure_witness :
    ((downloadMeetingsJob "j2" 0 3 (.apiError (some 502) "bad gateway")
        (fun _ => none)).outcome = .raisedApi (some 502) "bad gateway" ∧
      (downloadMeetingsJob "j2" 0 3 (.apiError (some 502) "bad gateway")
        (fun _ => none)).dispatches = [] ∧
      (∃ u, (downloadMeetingsJob "j2" 0 3 (.apiError (some 502) "bad gateway")
          (fun _ => none)).updates.getLast? = some u ∧ u.status = "failed" ∧
          u.completedAtStamped = true ∧
          u.errors = some [{ errorCode := "TLDV_API_ERROR", message := "bad gateway",
                             statusCode := some 502 }])) ∧
    ((downloadMeetingsJob "j2" 2 3 (.unexpected "boom") (fun _ => none)).outcome =
        .raisedRetry "boom" ∧
      ∀ u ∈ (downloadMeetingsJob "j2" 2 3 (.unexpected "boom") (fun _ => none)).updates,
        u.status ≠ "failed") ∧
    ((downloadMeetingsJob "j2" 3 3 (.unexpected "boom") (fun _ => none)).outcome =
        .raisedFinal "boom" ∧
      (∃ u, (downloadMeetingsJob "j2" 3 3 (.unexpected "boom")
          (fun _ => none)).updates.getLast? = some u ∧ u.status = "failed" ∧
          u.completedAtStamped = true ∧
          u.errors = some [{ errorCode := "UNEXPECTED_ERROR", message := "boom",
                             retries := some 3 }])) :=
  ⟨(batch_orchestrator_failure_semantics "j2" 0 3 (some 502) "bad gateway"
      (fun _ => none)).1,
   (batch_orchestrator_failure_semantics "j2" 2 3 (some 502) "boom"
      (fun _ => none)).2.1 (by omega),
   (batch_orchestrator_failure_semantics "j2" 3 3 (some 502) "boom"
      (fun _ => none)).2.2 (by omega)⟩

/-- Claim C8: a transcript sub-fetch failure with a succeeding highlights
fetch yields `transcript_saved = false`, `highlights_saved = true` and a
returned (not raised) result carrying the sub-error; and when the outer
failure has exhausted the task's retries, the processor returns a result
with all saved-flags false and a non-empty error list instead of raising. -/
theorem item_processor_isolates_failures (retries maxRetries : ℕ)
    (meetingId docId e : String) (url : Option String)
    (tMsg : String) (videoStep : SubStep) :
    ((downloadSingleMeeting retries maxRetries meetingId none (.ok docId)
        (.failedWith tMsg) .saved videoStep) =
      .returned { meetingId := docId, transcriptSaved := false,
                  highlightsSaved := true, videoUploaded := false,
                  errors := ["Transcript error: " ++ tMsg] }) ∧
    (maxRetries ≤ retries →
      ∃ r, downloadSingleMeeting retries maxRetries meetingId url (.error e)
          (.failedWith tMsg) .saved videoStep = .returned r ∧
        r.transcriptSaved = false ∧ r.highlightsSaved = false ∧
        r.videoUploaded = false ∧ r.errors ≠ []) := by
  constructor
  · rfl
  · intro h
    have hnot : ¬ retries < maxRetries := by omega
    refine ⟨{ meetingId := meetingId
              errors := ["Processing failed after " ++ toString retries
                ++ " retries: " ++ e] },
            ?_, rfl, rfl, rfl, by simp⟩
    simp only [downloadSingleMeeting, if_neg hnot]

/-- Witness for C8: meeting "m9" with a crashing transcript block and good
highlights returns partial success; the same task at exhausted retries (2 of
2) returns the all-false result with one error. -/
theorem item_processor_isolation_witness :
    (downloadSingleMeeting 0 2 "m9" none (.ok "doc9")
        (.failedWith "boom") .saved .absent =
      .returned { meetingId := "doc9", transcriptSaved := false,
                  highlightsSaved := true, videoUploaded := false,
                  errors := ["Transcript error: boom"] }) ∧
    (∃ r, downloadSingleMeeting 2 2 "m9" none (.error "db down")
        (.failedWith "boom") .saved .absent = .returned r ∧
      r.transcriptSaved = false ∧ r.highlightsSaved = false ∧
      r.videoUploaded = false ∧ r.errors ≠ []) :=
  ⟨(item_processor_isolates_failures 0 2 "m9" "doc9" "db down" none "boom" .absent).1,
   (item_processor_isolates_failures 2 2 "m9" "doc9" "db down" none "boom" .absent).2
     (by omega)⟩

/-- Claim C9: every running job whose `started_at` is older than
`now - maxRuntime` is force-failed with a `JOB_TIMEOUT` error entry and
`completed_at` stamped; every running job within the ceiling (or with no
`started_at`) is left untouched; the sweep applies this to each scanned job. -/
theorem stuck_job_monitor_force_fails_only_expired (h : ℕ) (now : ℚ)
    (j : StoredJob) (jobs : List StoredJob) :
    (∀ s, j.startedAt = some s → s < now - (h : ℚ) * 3600 →
      (sweepJob h now j).status = "failed" ∧
      (sweepJob h now j).completedAt = some now ∧
      ∃ e, e ∈ (sweepJob h now j).errors ∧ e.errorCode = "JOB_TIMEOUT") ∧
    (∀ s, j.startedAt = some s → now - (h : ℚ) * 3600 ≤ s →
      sweepJob h now j = j) ∧
    (monitorStuckJobs h now jobs).1 = jobs.map (sweepJob h now) := by
  refine ⟨?_, ?_, rfl⟩
  · intro s hs hold
    have hred : sweepJob h now j =
        { j with
          status := "failed"
          completedAt := some now
          errors := [{ errorCode := "JOB_TIMEOUT"
                       message := "Job exceeded maximum runtime of "
                         ++ toString h ++ " hours" }] } := by
      simp only [sweepJob, hs]
      rw [if_pos hold]
    rw [hred]
    exact ⟨rfl, rfl, ⟨_, List.mem_singleton_self _, rfl⟩⟩
  · intro s hs hyoung
    simp only [sweepJob, hs]
    rw [if_neg (not_lt.mpr hyoung)]

/-- A running job started 3 hours before the sweep at `now = 14400`. -/
def expiredRunningJob : StoredJob :=
  { id := "a", name := "A", status := "running", startedAt := some 3600 }

/-- A running job started 1 hour before the sweep at `now = 14400`. -/
def freshRunningJob : StoredJob :=
  { id := "b", name := "B", status := "running", startedAt := some 10800 }

/-- Witness for C9 (the spec's concrete scenario, clock in seconds): with a
2-hour ceiling at `now = 14400`, a job started at `3600` (3 hours ago) is
force-failed with `JOB_TIMEOUT` and `completed_at = now`, while a job
started at `10800` (1 hour ago) is untouched. -/
theorem stuck_job_monitor_witness :
    ((sweepJob 2 14400 expiredRunningJob).status = "failed" ∧
     (sweepJob 2 14400 expiredRunningJob).completedAt = some 14400 ∧
     ∃ e, e ∈ (sweepJob 2 14400 expiredRunningJob).errors ∧
       e.errorCode = "JOB_TIMEOUT") ∧
    sweepJob 2 14400 freshRunningJob = freshRunningJob :=
  ⟨(stuck_job_monitor_force_fails_only_expired 2 14400 expiredRunningJob []).1
      3600 rfl (by norm_num),
   (stuck_job_monitor_force_fails_only_expired 2 14400 freshRunningJob []).2.1
      10800 rfl (by norm_num)⟩

/-! ## Theorems about the job state machine -/

/-- Claim C1, as stated, is false: `start()` on a `completed` job does not
raise an `InvalidTransition` error and does not leave the record unchanged —
it moves the status backwards to `running`.  No `InvalidTransition` error
exists anywhere in the mutators. -/
theorem start_on_completed_job_goes_backwards :
    (completedJobExample.start 2).status = JobStatus.running ∧
    completedJobExample.start 2 ≠ completedJobExample ∧
    completedJobExample.status = JobStatus.completed := by
  refine ⟨rfl, ?_, rfl⟩
  intro h
  have : (completedJobExample.start 2).status = completedJobExample.status := by
    rw [h]
  simp [Job.start, completedJobExample] at this

/-- Claim C1 amended: the mutators `start` / `complete` / `fail` / `cancel`
perform no precondition check at all.  Each one unconditionally overwrites
`status` with its target state (so in particular `start` can move a finished
job back to `running`), `fail` appends exactly one error entry, and none of
them can raise. -/
theorem mutators_overwrite_status_unconditionally (j : Job) (r : Option ResultDict)
    (c m : String) (d : Option String) (now : ℚ) :
    (j.start now).status = JobStatus.running ∧
    (j.complete r now).status = JobStatus.completed ∧
    (j.fail c m d now).status = JobStatus.failed ∧
    (j.fail c m d now).errors.length = j.errors.length + 1 ∧
    (j.cancel now).status = JobStatus.cancelled := by
  refine ⟨rfl, rfl, rfl, ?_, rfl⟩
  simp [Job.fail, Job.addError]

/-- Claim C4: a failed job with retry budget left is reset to `pending` with
`started_at` / `completed_at` cleared, progress counters zeroed, and
`retry_count` incremented by exactly one; a job whose `retry_count` equals
`max_retries`, or one not in `failed` status, is refused with an error. -/
theorem retry_resets_and_is_bounded (j : Job) (now : ℚ) :
    (j.status = JobStatus.failed → j.retryCount < j.maxRetries →
      ∃ j', j.retry now = .ok j' ∧
        j'.status = JobStatus.pending ∧
        j'.startedAt = none ∧
        j'.completedAt = none ∧
        j'.retryCount = j.retryCount + 1 ∧
        (∀ p, j.progress = some p →
          ∃ q, j'.progress = some q ∧ q.completedSteps = 0 ∧ q.processedItems = 0)) ∧
    (j.retryCount = j.maxRetries ∨ j.status ≠ JobStatus.failed →
      j.retry now = .error "Job cannot be retried") := by
  constructor
  · intro hf hr
    have hcr : j.canRetry = true := by simp [Job.canRetry, hf, hr]
    refine ⟨{ j with
              retryCount := j.retryCount + 1
              status := .pending
              startedAt := none
              completedAt := none
              updatedAt := now
              progress := j.progress.map fun p =>
                { p with
                  completedSteps := 0
                  processedItems := 0
                  currentStep := "Retrying" } },
            ?_, rfl, rfl, rfl, rfl, ?_⟩
    · simp [Job.retry, hcr]
    · intro p hp
      refine ⟨{ p with
                completedSteps := 0
                processedItems := 0
                currentStep := "Retrying" }, ?_, rfl, rfl⟩
      simp [hp]
  · intro h
    have : ¬ j.canRetry := by
      simp only [Job.canRetry, decide_eq_true_eq, not_and]
      rcases h with h | h
      · intro _; omega
      · intro hs; exact absurd hs h
    simp [Job.retry, this]

/-- Witness for C4: the retryable example job is reset (status pending,
timestamps cleared, counters zeroed, retry count 2), and the exhausted
example job is refused. -/
theorem retry_resets_and_is_bounded_witness :
    (∃ j', retryableJobExample.retry 5 = .ok j' ∧
        j'.status = JobStatus.pending ∧
        j'.startedAt = none ∧
        j'.completedAt = none ∧
        j'.retryCount = retryableJobExample.retryCount + 1 ∧
        (∀ p, retryableJobExample.progress = some p →
          ∃ q, j'.progress = some q ∧ q.completedSteps = 0 ∧ q.processedItems = 0)) ∧
    exhaustedJobExample.retry 5 = .error "Job cannot be retried" :=
  ⟨(retry_resets_and_is_bounded retryableJobExample 5).1 rfl (by decide),
   (retry_resets_and_is_bounded exhaustedJobExample 5).2 (Or.inl rfl)⟩

/-- Claim C10: when `total_items` is a positive number but `processed_items`
is `0`, the item percentage is the falsy float `0.0`, so
`overall_percentage` falls through Python `or` to the step percentage. -/
theorem overall_percentage_falls_back_on_zero_item_percentage
    (p : JobProgress) (n : ℕ) (hn : p.totalItems = some n) (hpos : 0 < n)
    (h0 : p.processedItems = 0) :
    p.overallPercentage = p.stepPercentage := by
  have hne : n ≠ 0 := Nat.pos_iff_ne_zero.mp hpos
  simp [JobProgress.overallPercentage, JobProgress.itemPercentage, hn, h0, hne]

/-- A progress record with 25 known items, none processed yet, 2 of 4 steps
done. -/
def halfwayProgressExample : JobProgress :=
  { currentStep := "s", totalSteps := 4, completedSteps := 2,
    processedItems := 0, totalItems := some 25 }

/-- Witness for C10: on the example progress record the overall percentage is
the step percentage. -/
theorem overall_percentage_falls_back_witness :
    halfwayProgressExample.overallPercentage = halfwayProgressExample.stepPercentage :=
  overall_percentage_falls_back_on_zero_item_percentage
    halfwayProgressExample 25 rfl (by decide) rfl

end TldvPipeline
